import Mathlib

/-! minicap `SimpleServer`: a TCP listening-socket helper

Shallow embedding of `src/jni/minicap/SimpleServer.cpp` (class declared in
`SimpleServer.hpp`).  The object's only field is `mFd`.  Every operating-system
call the methods make is an explicit step against an arbitrary operating system
`sys : σ → SysCall → Int × σ` (state in, return value and state out), and is
appended, with its return value, to a call log.  C `int` values are `Int`.
A blocking `accept` is represented by the value it eventually returns.
-/

/-! ## Constants of the system headers (Linux / bionic values) -/

/-- Address family `AF_INET` of `<sys/socket.h>`. -/
def AF_INET : Int := 2

/-- Socket type `SOCK_STREAM` of `<sys/socket.h>`. -/
def SOCK_STREAM : Int := 1

/-- Option level `SOL_SOCKET` of `<sys/socket.h>`. -/
def SOL_SOCKET : Int := 1

/-- Option name `SO_REUSEADDR` of `<sys/socket.h>`. -/
def SO_REUSEADDR : Int := 2

/-- Wildcard host address `INADDR_ANY` of `<netinet/in.h>`. -/
def INADDR_ANY : Nat := 0

/-- Size in bytes of `int`, the `sizeof(int)` handed to `setsockopt`. -/
def SIZEOF_INT : Int := 4

/-- Size in bytes of `struct sockaddr_in`, the `sizeof(addr)` handed to `bind`. -/
def SIZEOF_SOCKADDR_IN : Int := 16

/-- Size in bytes of `struct sockaddr_un`, the initial `addr_len` handed to `accept`. -/
def SIZEOF_SOCKADDR_UN : Int := 110

/-! ## Data model -/

/-- A 16-bit quantity as it lies in memory in network byte order: `hi` is the
first (most significant) byte, `lo` the second. -/
structure NetShort where
  hi : Nat
  lo : Nat
deriving DecidableEq, Repr

/-- The `struct sockaddr_in` handed to `bind`; `sin_zero` is the padding that
`memset(&addr, 0, sizeof(addr))` clears. -/
structure SockAddrIn where
  sin_family : Int
  sin_port : NetShort
  sin_addr : Nat
  sin_zero : List Nat
deriving DecidableEq, Repr

/-- The operating-system calls the class issues, with their arguments. -/
inductive SysCall where
  | socket (domain type protocol : Int)
  | setsockopt (fd level optname optval optlen : Int)
  | bind (fd : Int) (addr : SockAddrIn) (addrlen : Int)
  | listen (fd backlog : Int)
  | accept (fd addrlen : Int)
  | close (fd : Int)
deriving DecidableEq, Repr

/-- One entry of the call log: the call and the value it returned. -/
structure Event where
  call : SysCall
  ret : Int
deriving DecidableEq, Repr

/-- The environment a method runs in: the operating system's state and the log
of the calls issued so far, oldest first. -/
structure World (σ : Type) where
  os : σ
  trace : List Event
deriving DecidableEq, Repr

/-- Issue one call: ask the operating system, log the call with its result. -/
def syscall {σ : Type} (sys : σ → SysCall → Int × σ) (w : World σ) (c : SysCall) :
    Int × World σ :=
  ((sys w.os c).1, ⟨(sys w.os c).2, w.trace ++ [⟨c, (sys w.os c).1⟩]⟩)

/-- Conversion of an `int` to `uint16_t` (the parameter type of `htons`):
reduction modulo 2^16. -/
def toUInt16 (x : Int) : Nat := (x % 65536).toNat

/-- The library function `htons`: the 16-bit value laid out most significant byte first. -/
def htons (hostshort : Nat) : NetShort := ⟨hostshort / 256 % 256, hostshort % 256⟩

/-- The 16-bit value a network-order short stands for (`ntohs`). -/
def ntohs (n : NetShort) : Nat := n.hi * 256 + n.lo

/-- The object state of `class SimpleServer`: its private field `int mFd`. -/
structure SimpleServer where
  mFd : Int
deriving DecidableEq, Repr

/-- Constructor `SimpleServer::SimpleServer(): mFd(0)`. -/
def SimpleServer.ctor : SimpleServer := ⟨0⟩

/-- Destructor `SimpleServer::~SimpleServer()`: `if (mFd > 0) ::close(mFd);`. -/
def SimpleServer.dtor {σ : Type} (self : SimpleServer) (sys : σ → SysCall → Int × σ)
    (w : World σ) : World σ :=
  if self.mFd > 0 then (syscall sys w (.close self.mFd)).2 else w

/-- The address `start` builds: zeroed, then family, wildcard host and
`htons(portno)` filled in. -/
def startAddr (portno : Int) : SockAddrIn :=
  ⟨AF_INET, htons (toUInt16 portno), INADDR_ANY, List.replicate 8 0⟩

/-- Method `int SimpleServer::start(const int portno)`: the return value, the
object afterwards and the environment afterwards. -/
def SimpleServer.start {σ : Type} (self : SimpleServer) (sys : σ → SysCall → Int × σ)
    (portno : Int) (w : World σ) : Int × SimpleServer × World σ :=
  let s := syscall sys w (.socket AF_INET SOCK_STREAM 0)
  let sfd := s.1
  if sfd < 0 then
    (sfd, self, s.2)
  else
    let optval : Int := 1
    let o := syscall sys s.2 (.setsockopt sfd SOL_SOCKET SO_REUSEADDR optval SIZEOF_INT)
    let addr := startAddr portno
    let b := syscall sys o.2 (.bind sfd addr SIZEOF_SOCKADDR_IN)
    if b.1 < 0 then
      let c := syscall sys b.2 (.close sfd)
      (-1, self, c.2)
    else
      let l := syscall sys b.2 (.listen sfd 1)
      let self' : SimpleServer := ⟨sfd⟩
      (self'.mFd, self', l.2)

/-- Method `int SimpleServer::accept()`: `return ::accept(mFd, &addr, &addr_len)`
with `addr_len = sizeof(struct sockaddr_un)`. -/
def SimpleServer.accept {σ : Type} (self : SimpleServer) (sys : σ → SysCall → Int × σ)
    (w : World σ) : Int × SimpleServer × World σ :=
  let a := syscall sys w (.accept self.mFd SIZEOF_SOCKADDR_UN)
  (a.1, self, a.2)

/-! ## Sequences of method calls on one instance -/

/-- A method call a client can make on a live instance. -/
inductive Op where
  | start (portno : Int)
  | accept
deriving DecidableEq, Repr

/-- Execute one method call. -/
def Op.exec {σ : Type} (sys : σ → SysCall → Int × σ) :
    Op → SimpleServer → World σ → Int × SimpleServer × World σ
  | .start portno, self, w => self.start sys portno w
  | .accept, self, w => self.accept sys w

/-- Execute a sequence of method calls, left to right, collecting each call
with its return value. -/
def run {σ : Type} (sys : σ → SysCall → Int × σ) :
    List Op → SimpleServer → World σ → List (Op × Int) × SimpleServer × World σ
  | [], self, w => ([], self, w)
  | op :: ops, self, w =>
    let r := op.exec sys self w
    let rest := run sys ops r.2.1 r.2.2
    ((op, r.1) :: rest.1, rest.2.1, rest.2.2)

/-- Whether a logged method call is a `start` that returned a non-negative value. -/
def startSucceeded : Op × Int → Bool
  | (.start _, r) => decide (0 ≤ r)
  | (.accept, _) => false

/-- An operating system that answers the calls it receives with the values of
a fixed script, in order (and with -1 once the script is exhausted). -/
def scripted : List Int → SysCall → Int × List Int
  | [], _ => (-1, [])
  | r :: rs, _ => (r, rs)

/-- The calls issued between an earlier and a later environment: what the
later log holds beyond the length of the earlier one. -/
def issued {σ : Type} (w w' : World σ) : List Event := w'.trace.drop w.trace.length

/-- Whether a call is a `close`. -/
def isClose : SysCall → Bool
  | .close _ => true
  | _ => false

/-- Whether a call is a `listen`. -/
def isListen : SysCall → Bool
  | .listen _ _ => true
  | _ => false

/-! ## A descriptor-table operating system

A small concrete operating system used to exhibit concrete runs: a table of
open descriptors (entry `i` describes descriptor `i`), the ports held by other
processes, and the limit on open descriptors. New descriptors get the lowest
free number. -/

/-- What an open descriptor refers to. -/
inductive Desc where
  | file
  | sock (reuse : Bool) (boundTo : Option NetShort) (listening : Bool) (pending : Nat)
  | conn
deriving DecidableEq, Repr

/-- State of the descriptor-table operating system. -/
structure FdTable where
  fds : List (Option Desc)
  busy : List NetShort
  limit : Nat
deriving DecidableEq, Repr

/-- Lowest descriptor number that is not open. -/
def lowestFree : List (Option Desc) → Nat
  | [] => 0
  | none :: _ => 0
  | some _ :: rest => lowestFree rest + 1

/-- Open the lowest free descriptor as `d`. -/
def install (fds : List (Option Desc)) (d : Desc) : List (Option Desc) :=
  if lowestFree fds < fds.length then fds.set (lowestFree fds) (some d) else fds ++ [some d]

/-- What descriptor `fd` refers to, `none` when it is not open. -/
def lookup (fds : List (Option Desc)) (fd : Int) : Option Desc :=
  if fd < 0 then none else fds.getD fd.toNat none

/-- Whether table entry `d` keeps a socket with reuse flag `reuse` from binding `port`. -/
def blocksBind (reuse : Bool) (port : NetShort) : Option Desc → Bool
  | some (.sock r (some q) l _) => decide (q = port) && (l || !reuse || !r)
  | _ => false

/-- The calls as the descriptor-table operating system answers them: -1 on
failure, 0 or the new descriptor on success. `bind` is refused for a port held
by another process, or bound by another socket of the table unless both
sockets have the reuse flag and the other one is not listening. Waiting is not
represented: `accept` on a listening socket with no peer pending is answered
-1, as an interrupted call would be. -/
def FdTable.sys (t : FdTable) : SysCall → Int × FdTable
  | .socket domain type protocol =>
    if domain = AF_INET ∧ type = SOCK_STREAM ∧ protocol = 0 ∧ lowestFree t.fds < t.limit then
      (lowestFree t.fds, ⟨install t.fds (.sock false none false 0), t.busy, t.limit⟩)
    else (-1, t)
  | .setsockopt fd level optname optval _ =>
    match lookup t.fds fd with
    | some (.sock _ b l p) =>
      if level = SOL_SOCKET ∧ optname = SO_REUSEADDR then
        (0, ⟨t.fds.set fd.toNat (some (.sock (decide (optval ≠ 0)) b l p)), t.busy, t.limit⟩)
      else (-1, t)
    | _ => (-1, t)
  | .bind fd addr _ =>
    match lookup t.fds fd with
    | some (.sock r none l p) =>
      if addr.sin_family = AF_INET ∧ addr.sin_port ∉ t.busy ∧
          t.fds.all (fun d => !blocksBind r addr.sin_port d) then
        (0, ⟨t.fds.set fd.toNat (some (.sock r (some addr.sin_port) l p)), t.busy, t.limit⟩)
      else (-1, t)
    | _ => (-1, t)
  | .listen fd _ =>
    match lookup t.fds fd with
    | some (.sock r (some q) _ p) =>
      (0, ⟨t.fds.set fd.toNat (some (.sock r (some q) true p)), t.busy, t.limit⟩)
    | _ => (-1, t)
  | .accept fd _ =>
    match lookup t.fds fd with
    | some (.sock r b true (p + 1)) =>
      if lowestFree t.fds < t.limit then
        (lowestFree t.fds, ⟨install (t.fds.set fd.toNat (some (.sock r b true p))) .conn,
          t.busy, t.limit⟩)
      else (-1, t)
    | _ => (-1, t)
  | .close fd =>
    match lookup t.fds fd with
    | some _ => (0, ⟨t.fds.set fd.toNat none, t.busy, t.limit⟩)
    | none => (-1, t)

/-- The usual start of a process: descriptors 0, 1 and 2 open on the terminal,
no port held elsewhere, room for 1024 descriptors. -/
def stdTable : FdTable := ⟨[some .file, some .file, some .file], [], 1024⟩

/-! ## Sockets created and not yet released, read off a call log -/

/-- Replay a call log against the list of sockets that were created by
`socket()` and not yet released: a `socket()` that returned a descriptor adds
it, a `close(fd)` removes `fd`. The result is `none` when a `close` names a
descriptor that is not in the list (a release of something not created here,
or a second release of the same socket). -/
def replay : List Int → List Event → Option (List Int)
  | live, [] => some live
  | live, ⟨.socket _ _ _, r⟩ :: es => replay (if 0 ≤ r then live ++ [r] else live) es
  | live, ⟨.close fd, _⟩ :: es => if fd ∈ live then replay (live.erase fd) es else none
  | live, ⟨.setsockopt _ _ _ _ _, _⟩ :: es => replay live es
  | live, ⟨.bind _ _ _, _⟩ :: es => replay live es
  | live, ⟨.listen _ _, _⟩ :: es => replay live es
  | live, ⟨.accept _ _, _⟩ :: es => replay live es

/-- The sockets created by the logged `socket()` calls and not yet released by
a logged `close()`, oldest first. -/
def liveSockets (trace : List Event) : Option (List Int) := replay [] trace

/-- How many `start` calls of a logged run returned a non-negative value. -/
def successes (results : List (Op × Int)) : Nat := (results.filter startSucceeded).length

/-- The ownership state of a Listener after `k` successful `start` calls, read
against its call log: replaying the log never releases a socket that is not
live; `k` sockets are live; with `k = 0` the stored descriptor is still 0; with
`k = 1` the one live socket is the stored descriptor. -/
def Owns (self : SimpleServer) (trace : List Event) (k : Nat) : Prop :=
  ∃ live, liveSockets trace = some live ∧ live.length = k ∧
    (k = 0 → self.mFd = 0) ∧ (k = 1 → live = [self.mFd])

/-! ## The three paths through `start` -/

/-- Path 1 of `start`: `socket` fails. -/
theorem start_socket_fails {σ : Type} (sys : σ → SysCall → Int × σ) (self : SimpleServer)
    (portno : Int) (w : World σ) (e : Int) (os1 : σ)
    (hsocket : sys w.os (.socket AF_INET SOCK_STREAM 0) = (e, os1)) (he : e < 0) :
    self.start sys portno w =
      (e, self, ⟨os1, w.trace ++ [⟨.socket AF_INET SOCK_STREAM 0, e⟩]⟩) := by
  simp [SimpleServer.start, syscall, hsocket, he]

/-- Path 2 of `start`: `socket` succeeds, `bind` fails. -/
theorem start_bind_fails {σ : Type} (sys : σ → SysCall → Int × σ) (self : SimpleServer)
    (portno : Int) (w : World σ) (sfd so b c : Int) (os1 os2 os3 os4 : σ)
    (hsocket : sys w.os (.socket AF_INET SOCK_STREAM 0) = (sfd, os1)) (hsfd : 0 ≤ sfd)
    (hsetsockopt : sys os1 (.setsockopt sfd SOL_SOCKET SO_REUSEADDR 1 SIZEOF_INT) = (so, os2))
    (hbind : sys os2 (.bind sfd (startAddr portno) SIZEOF_SOCKADDR_IN) = (b, os3)) (hb : b < 0)
    (hclose : sys os3 (.close sfd) = (c, os4)) :
    self.start sys portno w =
      (-1, self, ⟨os4, w.trace ++
        [⟨.socket AF_INET SOCK_STREAM 0, sfd⟩,
         ⟨.setsockopt sfd SOL_SOCKET SO_REUSEADDR 1 SIZEOF_INT, so⟩,
         ⟨.bind sfd (startAddr portno) SIZEOF_SOCKADDR_IN, b⟩,
         ⟨.close sfd, c⟩]⟩) := by
  simp [SimpleServer.start, syscall, hsocket, hsetsockopt, hbind, hclose, not_lt.mpr hsfd, hb]

/-- Path 3 of `start`: `socket` and `bind` succeed. -/
theorem start_succeeds {σ : Type} (sys : σ → SysCall → Int × σ) (self : SimpleServer)
    (portno : Int) (w : World σ) (sfd so b l : Int) (os1 os2 os3 os4 : σ)
    (hsocket : sys w.os (.socket AF_INET SOCK_STREAM 0) = (sfd, os1)) (hsfd : 0 ≤ sfd)
    (hsetsockopt : sys os1 (.setsockopt sfd SOL_SOCKET SO_REUSEADDR 1 SIZEOF_INT) = (so, os2))
    (hbind : sys os2 (.bind sfd (startAddr portno) SIZEOF_SOCKADDR_IN) = (b, os3)) (hb : 0 ≤ b)
    (hlisten : sys os3 (.listen sfd 1) = (l, os4)) :
    self.start sys portno w =
      (sfd, ⟨sfd⟩, ⟨os4, w.trace ++
        [⟨.socket AF_INET SOCK_STREAM 0, sfd⟩,
         ⟨.setsockopt sfd SOL_SOCKET SO_REUSEADDR 1 SIZEOF_INT, so⟩,
         ⟨.bind sfd (startAddr portno) SIZEOF_SOCKADDR_IN, b⟩,
         ⟨.listen sfd 1, l⟩]⟩) := by
  simp [SimpleServer.start, syscall, hsocket, hsetsockopt, hbind, hlisten, not_lt.mpr hsfd,
    not_lt.mpr hb]

/-- The calls issued by a step that appends `es` to the log are `es`. -/
theorem issued_append {σ : Type} (w : World σ) (os : σ) (es : List Event) :
    issued w ⟨os, w.trace ++ es⟩ = es := by
  simp [issued]

/-! ## Claims about `start` -/

/-- C1: whenever `socket()` returns `sfd ≥ 0` and `bind()` returns a value `≥ 0`,
`start` returns exactly `sfd` (a non-negative value) and stores it in `mFd`,
whatever the Listener state, the port and the values `so` and `l` returned by
`setsockopt()` and `listen()`; the calls issued are the four of the success
path and none of them is a `close`. -/
theorem start_success_returns_descriptor {σ : Type} (sys : σ → SysCall → Int × σ)
    (self : SimpleServer) (portno : Int) (w : World σ) (sfd so b l : Int) (os1 os2 os3 os4 : σ)
    (hsocket : sys w.os (.socket AF_INET SOCK_STREAM 0) = (sfd, os1)) (hsfd : 0 ≤ sfd)
    (hsetsockopt : sys os1 (.setsockopt sfd SOL_SOCKET SO_REUSEADDR 1 SIZEOF_INT) = (so, os2))
    (hbind : sys os2 (.bind sfd (startAddr portno) SIZEOF_SOCKADDR_IN) = (b, os3)) (hb : 0 ≤ b)
    (hlisten : sys os3 (.listen sfd 1) = (l, os4)) :
    (self.start sys portno w).1 = sfd ∧ 0 ≤ (self.start sys portno w).1 ∧
    (self.start sys portno w).2.1.mFd = sfd ∧
    issued w (self.start sys portno w).2.2 =
      [⟨.socket AF_INET SOCK_STREAM 0, sfd⟩,
       ⟨.setsockopt sfd SOL_SOCKET SO_REUSEADDR 1 SIZEOF_INT, so⟩,
       ⟨.bind sfd (startAddr portno) SIZEOF_SOCKADDR_IN, b⟩,
       ⟨.listen sfd 1, l⟩] ∧
    ∀ e ∈ issued w (self.start sys portno w).2.2, isClose e.call = false := by
  rw [start_succeeds sys self portno w sfd so b l os1 os2 os3 os4 hsocket hsfd hsetsockopt hbind
    hb hlisten]
  simp [issued_append, isClose, hsfd]

/-- C1 at a concrete run: on a Listener holding 7, with `socket` returning 5,
`setsockopt` failing, `bind` returning 0 and `listen` failing, `start` returns 5
and stores 5. -/
theorem start_success_returns_descriptor_witness :
    ((⟨7⟩ : SimpleServer).start scripted 9999 ⟨[5, -1, 0, -1], []⟩).1 = 5 ∧
    0 ≤ ((⟨7⟩ : SimpleServer).start scripted 9999 ⟨[5, -1, 0, -1], []⟩).1 ∧
    ((⟨7⟩ : SimpleServer).start scripted 9999 ⟨[5, -1, 0, -1], []⟩).2.1.mFd = 5 ∧
    issued ⟨[5, -1, 0, -1], []⟩ ((⟨7⟩ : SimpleServer).start scripted 9999 ⟨[5, -1, 0, -1], []⟩).2.2 =
      [⟨.socket AF_INET SOCK_STREAM 0, 5⟩,
       ⟨.setsockopt 5 SOL_SOCKET SO_REUSEADDR 1 SIZEOF_INT, -1⟩,
       ⟨.bind 5 (startAddr 9999) SIZEOF_SOCKADDR_IN, 0⟩,
       ⟨.listen 5 1, -1⟩] ∧
    ∀ e ∈ issued ⟨[5, -1, 0, -1], []⟩
        ((⟨7⟩ : SimpleServer).start scripted 9999 ⟨[5, -1, 0, -1], []⟩).2.2,
      isClose e.call = false :=
  start_success_returns_descriptor scripted ⟨7⟩ 9999 ⟨[5, -1, 0, -1], []⟩ 5 (-1) 0 (-1)
    [-1, 0, -1] [0, -1] [-1] [] rfl (by decide) rfl rfl (by decide) rfl

/-- C2: if `socket()` returns a negative value `e`, `start` returns exactly `e`,
leaves the object (its `mFd`) as it was, and the only call issued is that
`socket()`: no `setsockopt`, `bind`, `listen` or `close` follows. -/
theorem start_socket_failure_returns_error {σ : Type} (sys : σ → SysCall → Int × σ)
    (self : SimpleServer) (portno : Int) (w : World σ) (e : Int) (os1 : σ)
    (hsocket : sys w.os (.socket AF_INET SOCK_STREAM 0) = (e, os1)) (he : e < 0) :
    (self.start sys portno w).1 = e ∧
    (self.start sys portno w).2.1 = self ∧
    (self.start sys portno w).2.1.mFd = self.mFd ∧
    (self.start sys portno w).2.2.os = os1 ∧
    issued w (self.start sys portno w).2.2 = [⟨.socket AF_INET SOCK_STREAM 0, e⟩] := by
  rw [start_socket_fails sys self portno w e os1 hsocket he]
  simp [issued_append]

/-- C2 at a concrete run: with all three permitted descriptors in use, `socket`
returns -1, and so does `start`, issuing nothing else. -/
theorem start_socket_failure_returns_error_witness :
    (SimpleServer.ctor.start FdTable.sys 9999
      ⟨⟨[some .file, some .file, some .file], [], 3⟩, []⟩).1 = -1 ∧
    (SimpleServer.ctor.start FdTable.sys 9999
      ⟨⟨[some .file, some .file, some .file], [], 3⟩, []⟩).2.1 = SimpleServer.ctor ∧
    (SimpleServer.ctor.start FdTable.sys 9999
      ⟨⟨[some .file, some .file, some .file], [], 3⟩, []⟩).2.1.mFd = SimpleServer.ctor.mFd ∧
    (SimpleServer.ctor.start FdTable.sys 9999
      ⟨⟨[some .file, some .file, some .file], [], 3⟩, []⟩).2.2.os =
        ⟨[some .file, some .file, some .file], [], 3⟩ ∧
    issued ⟨⟨[some .file, some .file, some .file], [], 3⟩, []⟩
      (SimpleServer.ctor.start FdTable.sys 9999
        ⟨⟨[some .file, some .file, some .file], [], 3⟩, []⟩).2.2 =
      [⟨.socket AF_INET SOCK_STREAM 0, -1⟩] :=
  start_socket_failure_returns_error FdTable.sys SimpleServer.ctor 9999
    ⟨⟨[some .file, some .file, some .file], [], 3⟩, []⟩ (-1)
    ⟨[some .file, some .file, some .file], [], 3⟩ (by decide) (by decide)

/-- C3: on a freshly constructed Listener, when `socket()` returns `sfd ≥ 0` and
`bind()` returns a negative value `b`, `start` returns -1 whatever `b` is, the
object is still as constructed (`mFd = 0`), the calls issued are `socket`,
`setsockopt`, `bind`, `close(sfd)`: exactly one `close`, on `sfd`, and no
`listen`; and a following `start` whose `socket()` and `bind()` succeed returns
and stores its new descriptor `sfd2`. -/
theorem start_bind_failure_closes_and_stays_unset {σ : Type} (sys : σ → SysCall → Int × σ)
    (portno : Int) (w : World σ) (sfd so b c : Int) (os1 os2 os3 os4 : σ)
    (hsocket : sys w.os (.socket AF_INET SOCK_STREAM 0) = (sfd, os1)) (hsfd : 0 ≤ sfd)
    (hsetsockopt : sys os1 (.setsockopt sfd SOL_SOCKET SO_REUSEADDR 1 SIZEOF_INT) = (so, os2))
    (hbind : sys os2 (.bind sfd (startAddr portno) SIZEOF_SOCKADDR_IN) = (b, os3)) (hb : b < 0)
    (hclose : sys os3 (.close sfd) = (c, os4)) :
    (SimpleServer.ctor.start sys portno w).1 = -1 ∧
    (SimpleServer.ctor.start sys portno w).2.1 = SimpleServer.ctor ∧
    (SimpleServer.ctor.start sys portno w).2.1.mFd = 0 ∧
    issued w (SimpleServer.ctor.start sys portno w).2.2 =
      [⟨.socket AF_INET SOCK_STREAM 0, sfd⟩,
       ⟨.setsockopt sfd SOL_SOCKET SO_REUSEADDR 1 SIZEOF_INT, so⟩,
       ⟨.bind sfd (startAddr portno) SIZEOF_SOCKADDR_IN, b⟩,
       ⟨.close sfd, c⟩] ∧
    (issued w (SimpleServer.ctor.start sys portno w).2.2).filter (fun e => isClose e.call) =
      [⟨.close sfd, c⟩] ∧
    (∀ e ∈ issued w (SimpleServer.ctor.start sys portno w).2.2, isListen e.call = false) ∧
    ∀ (portno2 sfd2 so2 b2 l2 : Int) (os5 os6 os7 os8 : σ),
      sys os4 (.socket AF_INET SOCK_STREAM 0) = (sfd2, os5) → 0 ≤ sfd2 →
      sys os5 (.setsockopt sfd2 SOL_SOCKET SO_REUSEADDR 1 SIZEOF_INT) = (so2, os6) →
      sys os6 (.bind sfd2 (startAddr portno2) SIZEOF_SOCKADDR_IN) = (b2, os7) → 0 ≤ b2 →
      sys os7 (.listen sfd2 1) = (l2, os8) →
      ((SimpleServer.ctor.start sys portno w).2.1.start sys portno2
        (SimpleServer.ctor.start sys portno w).2.2).1 = sfd2 ∧
      ((SimpleServer.ctor.start sys portno w).2.1.start sys portno2
        (SimpleServer.ctor.start sys portno w).2.2).2.1.mFd = sfd2 := by
  rw [start_bind_fails sys SimpleServer.ctor portno w sfd so b c os1 os2 os3 os4 hsocket hsfd
    hsetsockopt hbind hb hclose]
  refine ⟨rfl, rfl, rfl, ?_, ?_, ?_, ?_⟩
  · simp [issued_append]
  · simp [issued_append, isClose]
  · simp [issued_append, isListen]
  · intro portno2 sfd2 so2 b2 l2 os5 os6 os7 os8 h1 h2 h3 h4 h5 h6
    simp only []
    rw [start_succeeds sys SimpleServer.ctor portno2 _ sfd2 so2 b2 l2 os5 os6 os7 os8 h1 h2 h3 h4
      h5 h6]
    exact ⟨rfl, rfl⟩

/-- C3 at a concrete run: port 9999 is held by another process, so `bind` on the
new descriptor 3 fails; `start` closes 3 and returns -1; the next `start`, on
the free port 9998, returns 3. -/
theorem start_bind_failure_closes_and_stays_unset_witness :
    (SimpleServer.ctor.start FdTable.sys 9999
      ⟨⟨[some .file, some .file, some .file], [htons 9999], 1024⟩, []⟩).1 = -1 ∧
    (SimpleServer.ctor.start FdTable.sys 9999
      ⟨⟨[some .file, some .file, some .file], [htons 9999], 1024⟩, []⟩).2.1.mFd = 0 ∧
    (issued ⟨⟨[some .file, some .file, some .file], [htons 9999], 1024⟩, []⟩
      (SimpleServer.ctor.start FdTable.sys 9999
        ⟨⟨[some .file, some .file, some .file], [htons 9999], 1024⟩, []⟩).2.2).filter
        (fun e => isClose e.call) = [⟨.close 3, 0⟩] ∧
    ((SimpleServer.ctor.start FdTable.sys 9999
        ⟨⟨[some .file, some .file, some .file], [htons 9999], 1024⟩, []⟩).2.1.start FdTable.sys 9998
      (SimpleServer.ctor.start FdTable.sys 9999
        ⟨⟨[some .file, some .file, some .file], [htons 9999], 1024⟩, []⟩).2.2).1 = 3 :=
  have h := start_bind_failure_closes_and_stays_unset FdTable.sys 9999
    ⟨⟨[some .file, some .file, some .file], [htons 9999], 1024⟩, []⟩ 3 0 (-1) 0
    ⟨[some .file, some .file, some .file, some (.sock false none false 0)], [htons 9999], 1024⟩
    ⟨[some .file, some .file, some .file, some (.sock true none false 0)], [htons 9999], 1024⟩
    ⟨[some .file, some .file, some .file, some (.sock true none false 0)], [htons 9999], 1024⟩
    ⟨[some .file, some .file, some .file, none], [htons 9999], 1024⟩
    (by decide) (by decide) (by decide) (by decide) (by decide) (by decide)
  ⟨h.1, h.2.2.1, h.2.2.2.2.1,
    (h.2.2.2.2.2.2 9998 3 0 0 0
      ⟨[some .file, some .file, some .file, some (.sock false none false 0)], [htons 9999], 1024⟩
      ⟨[some .file, some .file, some .file, some (.sock true none false 0)], [htons 9999], 1024⟩
      ⟨[some .file, some .file, some .file, some (.sock true (some (htons 9998)) false 0)],
        [htons 9999], 1024⟩
      ⟨[some .file, some .file, some .file, some (.sock true (some (htons 9998)) true 0)],
        [htons 9999], 1024⟩
      (by decide) (by decide) (by decide) (by decide) (by decide) (by decide)).1⟩

/-- The `uint16_t` an `int` converts to is below 2^16. -/
theorem toUInt16_lt (x : Int) : toUInt16 x < 65536 := by
  unfold toUInt16
  omega

/-- An `int` that is a port number converts to itself. -/
theorem toUInt16_of_port (x : Int) (h0 : 0 ≤ x) (h1 : x < 65536) : (toUInt16 x : Int) = x := by
  unfold toUInt16
  omega

/-- The conversion to `uint16_t` forgets multiples of 2^16. -/
theorem toUInt16_add_mul (x k : Int) : toUInt16 (x + 65536 * k) = toUInt16 x := by
  unfold toUInt16
  rw [Int.add_mul_emod_self_left]

/-- Decoding `htons` of a 16-bit value gives the value back. -/
theorem ntohs_htons (p : Nat) (h : p < 65536) : ntohs (htons p) = p := by
  unfold ntohs htons
  simp only []
  omega

/-- The address built by `start`, field by field. -/
theorem startAddr_eq (portno : Int) :
    startAddr portno =
      ⟨AF_INET, ⟨(portno % 65536).toNat / 256, (portno % 65536).toNat % 256⟩, INADDR_ANY,
        [0, 0, 0, 0, 0, 0, 0, 0]⟩ := by
  have h := toUInt16_lt portno
  unfold toUInt16 at h
  simp only [startAddr, htons, toUInt16, List.replicate, SockAddrIn.mk.injEq, NetShort.mk.injEq,
    true_and, and_true]
  omega

/-- C4: when `socket()` and `bind()` succeed, the calls `start` issues are, in
this order, `socket(AF_INET, SOCK_STREAM, 0)`; `setsockopt` on the new
descriptor setting `SO_REUSEADDR` to 1; `bind` of the new descriptor to the
zero-padded `AF_INET` address with host `INADDR_ANY` and the port in network
byte order; `listen` on the new descriptor with backlog 1. For a port number
(0 to 65535) the address decodes to exactly that port. -/
theorem start_call_sequence {σ : Type} (sys : σ → SysCall → Int × σ)
    (self : SimpleServer) (portno : Int) (w : World σ) (sfd so b l : Int) (os1 os2 os3 os4 : σ)
    (hsocket : sys w.os (.socket AF_INET SOCK_STREAM 0) = (sfd, os1)) (hsfd : 0 ≤ sfd)
    (hsetsockopt : sys os1 (.setsockopt sfd SOL_SOCKET SO_REUSEADDR 1 SIZEOF_INT) = (so, os2))
    (hbind : sys os2 (.bind sfd (startAddr portno) SIZEOF_SOCKADDR_IN) = (b, os3)) (hb : 0 ≤ b)
    (hlisten : sys os3 (.listen sfd 1) = (l, os4)) :
    (issued w (self.start sys portno w).2.2).map Event.call =
      [.socket AF_INET SOCK_STREAM 0,
       .setsockopt sfd SOL_SOCKET SO_REUSEADDR 1 SIZEOF_INT,
       .bind sfd ⟨AF_INET, ⟨(portno % 65536).toNat / 256, (portno % 65536).toNat % 256⟩,
          INADDR_ANY, [0, 0, 0, 0, 0, 0, 0, 0]⟩ SIZEOF_SOCKADDR_IN,
       .listen sfd 1] ∧
    (0 ≤ portno → portno < 65536 →
      (issued w (self.start sys portno w).2.2).map Event.call =
        [.socket AF_INET SOCK_STREAM 0,
         .setsockopt sfd SOL_SOCKET SO_REUSEADDR 1 SIZEOF_INT,
         .bind sfd ⟨AF_INET, ⟨portno.toNat / 256, portno.toNat % 256⟩,
            INADDR_ANY, [0, 0, 0, 0, 0, 0, 0, 0]⟩ SIZEOF_SOCKADDR_IN,
         .listen sfd 1] ∧
      (ntohs (startAddr portno).sin_port : Int) = portno) := by
  rw [start_succeeds sys self portno w sfd so b l os1 os2 os3 os4 hsocket hsfd hsetsockopt hbind
    hb hlisten]
  have hcalls : (issued w ⟨os4, w.trace ++
        [⟨.socket AF_INET SOCK_STREAM 0, sfd⟩,
         ⟨.setsockopt sfd SOL_SOCKET SO_REUSEADDR 1 SIZEOF_INT, so⟩,
         ⟨.bind sfd (startAddr portno) SIZEOF_SOCKADDR_IN, b⟩,
         ⟨.listen sfd 1, l⟩]⟩).map Event.call =
      [.socket AF_INET SOCK_STREAM 0,
       .setsockopt sfd SOL_SOCKET SO_REUSEADDR 1 SIZEOF_INT,
       .bind sfd ⟨AF_INET, ⟨(portno % 65536).toNat / 256, (portno % 65536).toNat % 256⟩,
          INADDR_ANY, [0, 0, 0, 0, 0, 0, 0, 0]⟩ SIZEOF_SOCKADDR_IN,
       .listen sfd 1] := by
    rw [issued_append, ← startAddr_eq]
    rfl
  refine ⟨hcalls, fun h0 h1 => ⟨?_, ?_⟩⟩
  · rw [hcalls, Int.emod_eq_of_lt h0 h1]
  · have h2 : (startAddr portno).sin_port = htons (toUInt16 portno) := rfl
    rw [h2, ntohs_htons _ (toUInt16_lt portno)]
    exact toUInt16_of_port portno h0 h1

/-- C4 at a concrete run: in a process with descriptors 0 to 2 open, `start(9999)`
issues `socket`, `setsockopt`, `bind` and `listen` on descriptor 3, binding the
port bytes (39, 15), that is 39 * 256 + 15 = 9999. -/
theorem start_call_sequence_witness :
    (issued ⟨stdTable, []⟩ (SimpleServer.ctor.start FdTable.sys 9999 ⟨stdTable, []⟩).2.2).map
        Event.call =
      [.socket AF_INET SOCK_STREAM 0,
       .setsockopt 3 SOL_SOCKET SO_REUSEADDR 1 SIZEOF_INT,
       .bind 3 ⟨AF_INET, ⟨39, 15⟩, INADDR_ANY, [0, 0, 0, 0, 0, 0, 0, 0]⟩ SIZEOF_SOCKADDR_IN,
       .listen 3 1] ∧
    (ntohs (startAddr 9999).sin_port : Int) = 9999 :=
  (start_call_sequence FdTable.sys SimpleServer.ctor 9999 ⟨stdTable, []⟩ 3 0 0 0
    ⟨[some .file, some .file, some .file, some (.sock false none false 0)], [], 1024⟩
    ⟨[some .file, some .file, some .file, some (.sock true none false 0)], [], 1024⟩
    ⟨[some .file, some .file, some .file, some (.sock true (some (htons 9999)) false 0)], [], 1024⟩
    ⟨[some .file, some .file, some .file, some (.sock true (some (htons 9999)) true 0)], [], 1024⟩
    (by decide) (by decide) (by decide) (by decide) (by decide) (by decide)).2
    (by decide) (by decide)

/-! ## General facts about `start`, `accept` and runs -/

/-- Every call of `start` takes one of its three paths. -/
theorem start_cases {σ : Type} (sys : σ → SysCall → Int × σ) (self : SimpleServer)
    (portno : Int) (w : World σ) :
    (∃ e os1, e < 0 ∧ self.start sys portno w =
      (e, self, ⟨os1, w.trace ++ [⟨.socket AF_INET SOCK_STREAM 0, e⟩]⟩)) ∨
    (∃ sfd so b c os4, 0 ≤ sfd ∧ b < 0 ∧ self.start sys portno w =
      (-1, self, ⟨os4, w.trace ++
        [⟨.socket AF_INET SOCK_STREAM 0, sfd⟩,
         ⟨.setsockopt sfd SOL_SOCKET SO_REUSEADDR 1 SIZEOF_INT, so⟩,
         ⟨.bind sfd (startAddr portno) SIZEOF_SOCKADDR_IN, b⟩,
         ⟨.close sfd, c⟩]⟩)) ∨
    (∃ sfd so b l os4, 0 ≤ sfd ∧ 0 ≤ b ∧ self.start sys portno w =
      (sfd, ⟨sfd⟩, ⟨os4, w.trace ++
        [⟨.socket AF_INET SOCK_STREAM 0, sfd⟩,
         ⟨.setsockopt sfd SOL_SOCKET SO_REUSEADDR 1 SIZEOF_INT, so⟩,
         ⟨.bind sfd (startAddr portno) SIZEOF_SOCKADDR_IN, b⟩,
         ⟨.listen sfd 1, l⟩]⟩)) := by
  rcases h1 : sys w.os (.socket AF_INET SOCK_STREAM 0) with ⟨sfd, os1⟩
  by_cases hs : sfd < 0
  · exact Or.inl ⟨sfd, os1, hs, start_socket_fails sys self portno w sfd os1 h1 hs⟩
  · have hs' : 0 ≤ sfd := not_lt.mp hs
    rcases h2 : sys os1 (.setsockopt sfd SOL_SOCKET SO_REUSEADDR 1 SIZEOF_INT) with ⟨so, os2⟩
    rcases h3 : sys os2 (.bind sfd (startAddr portno) SIZEOF_SOCKADDR_IN) with ⟨b, os3⟩
    by_cases hb : b < 0
    · rcases h4 : sys os3 (.close sfd) with ⟨c, os4⟩
      exact Or.inr (Or.inl ⟨sfd, so, b, c, os4, hs', hb,
        start_bind_fails sys self portno w sfd so b c os1 os2 os3 os4 h1 hs' h2 h3 hb h4⟩)
    · rcases h4 : sys os3 (.listen sfd 1) with ⟨l, os4⟩
      exact Or.inr (Or.inr ⟨sfd, so, b, l, os4, hs', not_lt.mp hb,
        start_succeeds sys self portno w sfd so b l os1 os2 os3 os4 h1 hs' h2 h3 (not_lt.mp hb)
          h4⟩)

/-- A `start` that returns a negative value leaves the object as it was. -/
theorem start_neg_keeps {σ : Type} (sys : σ → SysCall → Int × σ) (self : SimpleServer)
    (portno : Int) (w : World σ) (h : (self.start sys portno w).1 < 0) :
    (self.start sys portno w).2.1 = self := by
  rcases start_cases sys self portno w with ⟨e, os1, _, heq⟩ | ⟨sfd, so, b, c, os4, _, _, heq⟩ |
    ⟨sfd, so, b, l, os4, hs, _, heq⟩
  · rw [heq]
  · rw [heq]
  · rw [heq] at h
    exact absurd h (not_lt.mpr hs)

/-- The value and the object of one `accept`, and the call it logs. -/
theorem accept_eq {σ : Type} (sys : σ → SysCall → Int × σ) (self : SimpleServer) (w : World σ) :
    self.accept sys w =
      ((sys w.os (.accept self.mFd SIZEOF_SOCKADDR_UN)).1, self,
        ⟨(sys w.os (.accept self.mFd SIZEOF_SOCKADDR_UN)).2,
          w.trace ++ [⟨.accept self.mFd SIZEOF_SOCKADDR_UN,
            (sys w.os (.accept self.mFd SIZEOF_SOCKADDR_UN)).1⟩]⟩) := rfl

/-- The calls issued over two consecutive steps are those of the first followed
by those of the second, when each step only appends to the log. -/
theorem issued_of_trace_eq {σ : Type} (w w' : World σ) (es : List Event)
    (h : w'.trace = w.trace ++ es) : issued w w' = es := by
  simp [issued, h]

/-- A run of `n` consecutive `accept` calls: the object is unchanged, and the
log grows by `n` calls `accept(mFd)` whose results are the values returned. -/
theorem run_accepts {σ : Type} (sys : σ → SysCall → Int × σ) (self : SimpleServer) (n : Nat) :
    ∀ w : World σ, (run sys (List.replicate n Op.accept) self w).2.1 = self ∧
      ∃ es, (run sys (List.replicate n Op.accept) self w).2.2.trace = w.trace ++ es ∧
        es.map Event.call = List.replicate n (.accept self.mFd SIZEOF_SOCKADDR_UN) ∧
        es.map Event.ret = (run sys (List.replicate n Op.accept) self w).1.map Prod.snd := by
  induction n with
  | zero => intro w; exact ⟨rfl, [], by simp [run], rfl, rfl⟩
  | succ n ih =>
    intro w
    obtain ⟨h1, es, h2, h3, h4⟩ := ih (self.accept sys w).2.2
    simp only [List.replicate_succ, run, Op.exec]
    have ha : (self.accept sys w).2.1 = self := rfl
    rw [ha]
    refine ⟨h1, ⟨.accept self.mFd SIZEOF_SOCKADDR_UN, (self.accept sys w).1⟩ :: es, ?_, ?_, ?_⟩
    · rw [h2, accept_eq]
      simp
    · simp [h3]
    · simp [h4]

/-- A run in which no `start` returned a non-negative value leaves the object
as it was. -/
theorem run_no_success_keeps {σ : Type} (sys : σ → SysCall → Int × σ) (ops : List Op) :
    ∀ (self : SimpleServer) (w : World σ),
      (∀ x ∈ (run sys ops self w).1, startSucceeded x = false) →
      (run sys ops self w).2.1 = self := by
  induction ops with
  | nil => intro self w _; rfl
  | cons op ops ih =>
    intro self w h
    simp only [run, List.mem_cons, forall_eq_or_imp] at h ⊢
    obtain ⟨h1, h2⟩ := h
    have hkeep : (op.exec sys self w).2.1 = self := by
      cases op with
      | accept => rfl
      | start portno =>
        simp only [Op.exec, startSucceeded, decide_eq_false_iff_not, not_le] at h1 ⊢
        exact start_neg_keeps sys self portno w h1
    rw [ih _ _ h2, hkeep]

/-! ## Claims about `accept` and destruction -/

/-- C5: in every Listener state, `accept` issues exactly one call, `accept` on
the stored descriptor `mFd`, returns that call's result unchanged and leaves the
object unchanged; any number `n` of consecutive `accept` calls issue `n` calls
`accept(mFd)` and no `close`, returning the results of those calls; and after
a `start` that returned a non-negative value, they all act on the descriptor
that `start` returned. -/
theorem accept_single_call_on_stored {σ : Type} (sys : σ → SysCall → Int × σ)
    (self : SimpleServer) (w : World σ) :
    (self.accept sys w).1 = (sys w.os (.accept self.mFd SIZEOF_SOCKADDR_UN)).1 ∧
    (self.accept sys w).2.1 = self ∧
    (self.accept sys w).2.2.os = (sys w.os (.accept self.mFd SIZEOF_SOCKADDR_UN)).2 ∧
    issued w (self.accept sys w).2.2 =
      [⟨.accept self.mFd SIZEOF_SOCKADDR_UN, (self.accept sys w).1⟩] ∧
    (∀ n : Nat,
      (run sys (List.replicate n Op.accept) self w).2.1 = self ∧
      (issued w (run sys (List.replicate n Op.accept) self w).2.2).map Event.call =
        List.replicate n (.accept self.mFd SIZEOF_SOCKADDR_UN) ∧
      (issued w (run sys (List.replicate n Op.accept) self w).2.2).map Event.ret =
        (run sys (List.replicate n Op.accept) self w).1.map Prod.snd ∧
      ∀ e ∈ issued w (run sys (List.replicate n Op.accept) self w).2.2,
        isClose e.call = false) ∧
    (∀ (portno : Int) (n : Nat), 0 ≤ (self.start sys portno w).1 →
      (run sys (List.replicate n Op.accept) (self.start sys portno w).2.1
        (self.start sys portno w).2.2).2.1.mFd = (self.start sys portno w).1 ∧
      (issued (self.start sys portno w).2.2
        (run sys (List.replicate n Op.accept) (self.start sys portno w).2.1
          (self.start sys portno w).2.2).2.2).map Event.call =
        List.replicate n (.accept (self.start sys portno w).1 SIZEOF_SOCKADDR_UN)) := by
  have key : ∀ (s : SimpleServer) (v : World σ) (n : Nat),
      (run sys (List.replicate n Op.accept) s v).2.1 = s ∧
      (issued v (run sys (List.replicate n Op.accept) s v).2.2).map Event.call =
        List.replicate n (.accept s.mFd SIZEOF_SOCKADDR_UN) ∧
      (issued v (run sys (List.replicate n Op.accept) s v).2.2).map Event.ret =
        (run sys (List.replicate n Op.accept) s v).1.map Prod.snd ∧
      ∀ e ∈ issued v (run sys (List.replicate n Op.accept) s v).2.2,
        isClose e.call = false := by
    intro s v n
    obtain ⟨h1, es, h2, h3, h4⟩ := run_accepts sys s n v
    rw [issued_of_trace_eq v _ es h2]
    refine ⟨h1, h3, h4, ?_⟩
    intro e he
    have hc : e.call ∈ es.map Event.call := List.mem_map_of_mem Event.call he
    rw [h3] at hc
    rw [List.eq_of_mem_replicate hc]
    rfl
  refine ⟨rfl, rfl, rfl, ?_, key self w, ?_⟩
  · rw [accept_eq, issued_append]
  · intro portno n h
    have hm : (self.start sys portno w).2.1.mFd = (self.start sys portno w).1 := by
      rcases start_cases sys self portno w with ⟨e, os1, he, heq⟩ |
        ⟨sfd, so, b, c, os4, _, _, heq⟩ | ⟨sfd, so, b, l, os4, hs, _, heq⟩
      · rw [heq] at h
        exact absurd he (not_lt.mpr h)
      · rw [heq] at h
        exact absurd h (show ¬ (0 : Int) ≤ -1 by decide)
      · rw [heq]
    obtain ⟨k1, k2, _, _⟩ := key (self.start sys portno w).2.1 (self.start sys portno w).2.2 n
    rw [k1, k2, hm]
    exact ⟨rfl, rfl⟩

/-- C5 at a concrete run: `start(9999)` returns descriptor 3; the two `accept`
calls that follow both act on descriptor 3 (no peer is waiting, so each is
answered -1) and 3 stays stored. -/
theorem accept_single_call_on_stored_witness :
    (run FdTable.sys (List.replicate 2 Op.accept)
      (SimpleServer.ctor.start FdTable.sys 9999 ⟨stdTable, []⟩).2.1
      (SimpleServer.ctor.start FdTable.sys 9999 ⟨stdTable, []⟩).2.2).2.1.mFd = 3 ∧
    (issued (SimpleServer.ctor.start FdTable.sys 9999 ⟨stdTable, []⟩).2.2
      (run FdTable.sys (List.replicate 2 Op.accept)
        (SimpleServer.ctor.start FdTable.sys 9999 ⟨stdTable, []⟩).2.1
        (SimpleServer.ctor.start FdTable.sys 9999 ⟨stdTable, []⟩).2.2).2.2).map Event.call =
      [.accept 3 SIZEOF_SOCKADDR_UN, .accept 3 SIZEOF_SOCKADDR_UN] :=
  (accept_single_call_on_stored FdTable.sys SimpleServer.ctor ⟨stdTable, []⟩).2.2.2.2.2
    9999 2 (by decide)

/-- C6: destroying a Listener issues exactly one call, `close(mFd)`, when the
stored descriptor is strictly positive: the environment afterwards is the one
that call leaves, the operating system having taken its `close(mFd)` step and
the log holding that one more entry. It issues no call at all otherwise, the
environment being untouched; so a `close` is issued if and only if `mFd > 0`.
In particular nothing is issued for
a Listener as constructed, nor after a run in which every `start` failed; and
when a successful `start` stored descriptor 0, destruction issues nothing, so
that no `close` of descriptor 0 is ever issued. -/
theorem dtor_closes_iff_positive {σ : Type} (sys : σ → SysCall → Int × σ)
    (self : SimpleServer) (w : World σ) :
    (0 < self.mFd →
      self.dtor sys w = (syscall sys w (.close self.mFd)).2 ∧
      self.dtor sys w =
        ⟨(sys w.os (.close self.mFd)).2,
          w.trace ++ [⟨.close self.mFd, (sys w.os (.close self.mFd)).1⟩]⟩ ∧
      (self.dtor sys w).os = (sys w.os (.close self.mFd)).2 ∧
      issued w (self.dtor sys w) = [⟨.close self.mFd, (sys w.os (.close self.mFd)).1⟩]) ∧
    (¬ 0 < self.mFd → self.dtor sys w = w ∧ issued w (self.dtor sys w) = []) ∧
    ((∃ e ∈ issued w (self.dtor sys w), isClose e.call = true) ↔ 0 < self.mFd) ∧
    SimpleServer.ctor.dtor sys w = w ∧
    (∀ ops : List Op, (∀ x ∈ (run sys ops SimpleServer.ctor w).1, startSucceeded x = false) →
      (run sys ops SimpleServer.ctor w).2.1.dtor sys (run sys ops SimpleServer.ctor w).2.2 =
        (run sys ops SimpleServer.ctor w).2.2) ∧
    (∀ (portno so b l : Int) (os1 os2 os3 os4 : σ),
      sys w.os (.socket AF_INET SOCK_STREAM 0) = (0, os1) →
      sys os1 (.setsockopt 0 SOL_SOCKET SO_REUSEADDR 1 SIZEOF_INT) = (so, os2) →
      sys os2 (.bind 0 (startAddr portno) SIZEOF_SOCKADDR_IN) = (b, os3) → 0 ≤ b →
      sys os3 (.listen 0 1) = (l, os4) →
      (self.start sys portno w).1 = 0 ∧ (self.start sys portno w).2.1.mFd = 0 ∧
      (self.start sys portno w).2.1.dtor sys (self.start sys portno w).2.2 =
        (self.start sys portno w).2.2 ∧
      ∀ e ∈ issued w ((self.start sys portno w).2.1.dtor sys (self.start sys portno w).2.2),
        isClose e.call = false) := by
  have hstep : 0 < self.mFd → self.dtor sys w = (syscall sys w (.close self.mFd)).2 := by
    intro h
    simp [SimpleServer.dtor, h]
  have hpos : 0 < self.mFd →
      issued w (self.dtor sys w) = [⟨.close self.mFd, (sys w.os (.close self.mFd)).1⟩] := by
    intro h
    rw [hstep h]
    exact issued_append w _ _
  have hnon : ¬ 0 < self.mFd → self.dtor sys w = w ∧ issued w (self.dtor sys w) = [] := by
    intro h
    simp [SimpleServer.dtor, h, issued]
  refine ⟨fun h => ⟨hstep h, ?_, ?_, hpos h⟩, hnon, ?_, ?_, ?_, ?_⟩
  · rw [hstep h]
    rfl
  · rw [hstep h]
    rfl
  · constructor
    · rintro ⟨e, he, _⟩
      by_contra hn
      rw [(hnon hn).2] at he
      exact absurd he (List.not_mem_nil e)
    · intro h
      rw [hpos h]
      exact ⟨_, List.mem_singleton_self _, rfl⟩
  · simp [SimpleServer.dtor, SimpleServer.ctor]
  · intro ops h
    have hk := run_no_success_keeps sys ops SimpleServer.ctor w h
    unfold SimpleServer.dtor
    rw [hk]
    simp [SimpleServer.ctor]
  · intro portno so b l os1 os2 os3 os4 h1 h2 h3 hb h4
    rw [start_succeeds sys self portno w 0 so b l os1 os2 os3 os4 h1 (le_refl 0) h2 h3 hb h4]
    simp [SimpleServer.dtor, issued, isClose]

/-- C6 at concrete runs: a Listener holding descriptor 3 is destroyed with the
single call `close(3)`; after `start(9999)` stored descriptor 3, destruction
closes it in the descriptor table; a Listener as constructed is destroyed with
no call; and in a process whose descriptor 0 is closed, `start` obtains and
stores descriptor 0 and destruction leaves the socket open in the table. -/
theorem dtor_closes_iff_positive_witness :
    issued ⟨[0], []⟩ ((⟨3⟩ : SimpleServer).dtor scripted ⟨[0], []⟩) = [⟨.close 3, 0⟩] ∧
    (SimpleServer.ctor.start FdTable.sys 9999 ⟨stdTable, []⟩).2.2.os =
      ⟨[some .file, some .file, some .file, some (.sock true (some (htons 9999)) true 0)],
        [], 1024⟩ ∧
    ((SimpleServer.ctor.start FdTable.sys 9999 ⟨stdTable, []⟩).2.1.dtor FdTable.sys
      (SimpleServer.ctor.start FdTable.sys 9999 ⟨stdTable, []⟩).2.2).os =
      ⟨[some .file, some .file, some .file, none], [], 1024⟩ ∧
    issued (SimpleServer.ctor.start FdTable.sys 9999 ⟨stdTable, []⟩).2.2
      ((SimpleServer.ctor.start FdTable.sys 9999 ⟨stdTable, []⟩).2.1.dtor FdTable.sys
        (SimpleServer.ctor.start FdTable.sys 9999 ⟨stdTable, []⟩).2.2) = [⟨.close 3, 0⟩] ∧
    SimpleServer.ctor.dtor scripted ⟨[0], []⟩ = ⟨[0], []⟩ ∧
    (run FdTable.sys [.start 9999, .accept] SimpleServer.ctor
        ⟨⟨[some .file], [htons 9999], 8⟩, []⟩).2.1.dtor FdTable.sys
      (run FdTable.sys [.start 9999, .accept] SimpleServer.ctor
        ⟨⟨[some .file], [htons 9999], 8⟩, []⟩).2.2 =
      (run FdTable.sys [.start 9999, .accept] SimpleServer.ctor
        ⟨⟨[some .file], [htons 9999], 8⟩, []⟩).2.2 ∧
    (SimpleServer.ctor.start FdTable.sys 9999 ⟨⟨[none, some .file], [], 8⟩, []⟩).1 = 0 ∧
    ((SimpleServer.ctor.start FdTable.sys 9999 ⟨⟨[none, some .file], [], 8⟩, []⟩).2.1.dtor
      FdTable.sys (SimpleServer.ctor.start FdTable.sys 9999
        ⟨⟨[none, some .file], [], 8⟩, []⟩).2.2).os =
      ⟨[some (.sock true (some (htons 9999)) true 0), some .file], [], 8⟩ :=
  ⟨((dtor_closes_iff_positive scripted ⟨3⟩ ⟨[0], []⟩).1 (by decide)).2.2.2,
   by decide,
   ((dtor_closes_iff_positive FdTable.sys
      (SimpleServer.ctor.start FdTable.sys 9999 ⟨stdTable, []⟩).2.1
      (SimpleServer.ctor.start FdTable.sys 9999 ⟨stdTable, []⟩).2.2).1 (by decide)).2.2.1,
   ((dtor_closes_iff_positive FdTable.sys
      (SimpleServer.ctor.start FdTable.sys 9999 ⟨stdTable, []⟩).2.1
      (SimpleServer.ctor.start FdTable.sys 9999 ⟨stdTable, []⟩).2.2).1 (by decide)).2.2.2,
   ((dtor_closes_iff_positive scripted SimpleServer.ctor ⟨[0], []⟩).2.1 (by decide)).1,
   (dtor_closes_iff_positive FdTable.sys SimpleServer.ctor
      ⟨⟨[some .file], [htons 9999], 8⟩, []⟩).2.2.2.2.1 [.start 9999, .accept] (by decide),
   ((dtor_closes_iff_positive FdTable.sys SimpleServer.ctor
      ⟨⟨[none, some .file], [], 8⟩, []⟩).2.2.2.2.2 9999 0 0 0
      ⟨[some (.sock false none false 0), some .file], [], 8⟩
      ⟨[some (.sock true none false 0), some .file], [], 8⟩
      ⟨[some (.sock true (some (htons 9999)) false 0), some .file], [], 8⟩
      ⟨[some (.sock true (some (htons 9999)) true 0), some .file], [], 8⟩
      (by decide) (by decide) (by decide) (by decide) (by decide)).1,
   by
    have h := ((dtor_closes_iff_positive FdTable.sys SimpleServer.ctor
      ⟨⟨[none, some .file], [], 8⟩, []⟩).2.2.2.2.2 9999 0 0 0
      ⟨[some (.sock false none false 0), some .file], [], 8⟩
      ⟨[some (.sock true none false 0), some .file], [], 8⟩
      ⟨[some (.sock true (some (htons 9999)) false 0), some .file], [], 8⟩
      ⟨[some (.sock true (some (htons 9999)) true 0), some .file], [], 8⟩
      (by decide) (by decide) (by decide) (by decide) (by decide)).2.2.1
    rw [h]
    decide⟩

/-! ## Sockets created and released along a run -/

/-- Replaying a log in two parts. -/
theorem replay_append (t t' : List Event) :
    ∀ live, replay live (t ++ t') = (replay live t).bind (fun l => replay l t') := by
  induction t with
  | nil => intro live; simp [replay]
  | cons e t ih =>
    intro live
    obtain ⟨c, r⟩ := e
    cases c with
    | close fd =>
      by_cases h : fd ∈ live
      · simp [replay, ih, h]
      · simp [replay, h]
    | socket d ty pr => simp [replay, ih]
    | setsockopt fd lv nm v ln => simp [replay, ih]
    | bind fd a ln => simp [replay, ih]
    | listen fd n => simp [replay, ih]
    | accept fd ln => simp [replay, ih]

/-- One method call preserves the ownership state, counting one more success
when it is a `start` that returned a non-negative value. -/
theorem owns_exec {σ : Type} (sys : σ → SysCall → Int × σ) (op : Op) (self : SimpleServer)
    (w : World σ) (k : Nat) (h : Owns self w.trace k) :
    Owns (op.exec sys self w).2.1 (op.exec sys self w).2.2.trace
      (k + successes [(op, (op.exec sys self w).1)]) := by
  obtain ⟨live, h1, h2, h3, h4⟩ := h
  unfold liveSockets at h1
  cases op with
  | accept =>
    refine ⟨live, ?_, by simpa [successes, startSucceeded] using h2, ?_, ?_⟩
    · simp [Op.exec, accept_eq, liveSockets, replay_append, h1, replay]
    · intro hk
      exact h3 (by simpa [successes, startSucceeded] using hk)
    · intro hk
      exact h4 (by simpa [successes, startSucceeded] using hk)
  | start portno =>
    simp only [Op.exec]
    rcases start_cases sys self portno w with ⟨e, os1, he, heq⟩ |
      ⟨sfd, so, b, c, os4, hs, _, heq⟩ | ⟨sfd, so, b, l, os4, hs, _, heq⟩
    · rw [heq]
      have hne : ¬ 0 ≤ e := not_le.mpr he
      refine ⟨live, ?_, by simpa [successes, startSucceeded, hne] using h2, ?_, ?_⟩
      · simp [liveSockets, replay_append, h1, replay, hne]
      · intro hk
        exact h3 (by simpa [successes, startSucceeded, hne] using hk)
      · intro hk
        exact h4 (by simpa [successes, startSucceeded, hne] using hk)
    · rw [heq]
      have hk0 : k + successes [(Op.start portno, (-1 : Int))] = k := by
        simp [successes, startSucceeded]
      simp only [hk0]
      refine ⟨(live ++ [sfd]).erase sfd, ?_, ?_, h3, ?_⟩
      · simp [liveSockets, replay_append, h1, replay, hs]
      · rw [List.length_erase_of_mem (by simp)]
        simp [h2]
      · intro hk
        rw [h4 hk]
        by_cases hm : self.mFd = sfd
        · simp [hm]
        · simp [List.erase_cons, hm]
    · rw [heq]
      have hk1 : k + successes [(Op.start portno, sfd)] = k + 1 := by
        simp [successes, startSucceeded, hs]
      simp only [hk1]
      refine ⟨live ++ [sfd], ?_, by simp [h2], by omega, ?_⟩
      · simp [liveSockets, replay_append, h1, replay, hs]
      · intro hk
        have hl : live = [] := List.length_eq_zero.mp (by omega)
        simp [hl]

/-- A run preserves the ownership state, counting its successful `start` calls. -/
theorem owns_run {σ : Type} (sys : σ → SysCall → Int × σ) (ops : List Op) :
    ∀ (self : SimpleServer) (w : World σ) (k : Nat), Owns self w.trace k →
      Owns (run sys ops self w).2.1 (run sys ops self w).2.2.trace
        (k + successes (run sys ops self w).1) := by
  induction ops with
  | nil => intro self w k h; simpa [run, successes] using h
  | cons op ops ih =>
    intro self w k h
    have h1 := ih _ _ _ (owns_exec sys op self w k h)
    have hs : k + successes (run sys (op :: ops) self w).1 =
        k + successes [(op, (op.exec sys self w).1)] +
          successes (run sys ops (op.exec sys self w).2.1 (op.exec sys self w).2.2).1 := by
      simp only [run, successes, List.filter_cons, List.filter_nil]
      split
      · simp
        omega
      · simp
    rw [hs]
    exact h1

/-! ## Claims about what a successful `start` establishes and about ownership -/

/-- C7, as stated, fails: with `socket` returning 3, `setsockopt` and `bind`
returning 0 and `listen` returning -1, `start` returns 3 and stores 3 although
`listen` failed; likewise when it is `setsockopt` that returns -1. -/
theorem start_success_despite_failed_listen :
    (SimpleServer.ctor.start scripted 9999 ⟨[3, 0, 0, -1], []⟩).1 = 3 ∧
    (SimpleServer.ctor.start scripted 9999 ⟨[3, 0, 0, -1], []⟩).2.1.mFd = 3 ∧
    issued ⟨[3, 0, 0, -1], []⟩ (SimpleServer.ctor.start scripted 9999 ⟨[3, 0, 0, -1], []⟩).2.2 =
      [⟨.socket AF_INET SOCK_STREAM 0, 3⟩,
       ⟨.setsockopt 3 SOL_SOCKET SO_REUSEADDR 1 SIZEOF_INT, 0⟩,
       ⟨.bind 3 (startAddr 9999) SIZEOF_SOCKADDR_IN, 0⟩,
       ⟨.listen 3 1, -1⟩] ∧
    (SimpleServer.ctor.start scripted 9999 ⟨[3, -1, 0, 0], []⟩).1 = 3 ∧
    issued ⟨[3, -1, 0, 0], []⟩ (SimpleServer.ctor.start scripted 9999 ⟨[3, -1, 0, 0], []⟩).2.2 =
      [⟨.socket AF_INET SOCK_STREAM 0, 3⟩,
       ⟨.setsockopt 3 SOL_SOCKET SO_REUSEADDR 1 SIZEOF_INT, -1⟩,
       ⟨.bind 3 (startAddr 9999) SIZEOF_SOCKADDR_IN, 0⟩,
       ⟨.listen 3 1, 0⟩] := by
  decide

/-- C7, amended: whenever `start` returns a non-negative value, that value is
the descriptor `socket()` returned and is stored in `mFd`; `setsockopt`
(`SO_REUSEADDR` := 1), `bind` to the address of the requested port and `listen`
with backlog 1 were all issued on it, in this order; and `bind` returned a
non-negative value. The values returned by `setsockopt` and `listen` are not
constrained. -/
theorem start_nonneg_implies_bound {σ : Type} (sys : σ → SysCall → Int × σ)
    (self : SimpleServer) (portno : Int) (w : World σ)
    (h : 0 ≤ (self.start sys portno w).1) :
    (self.start sys portno w).2.1.mFd = (self.start sys portno w).1 ∧
    ∃ so b l : Int, 0 ≤ b ∧
      issued w (self.start sys portno w).2.2 =
        [⟨.socket AF_INET SOCK_STREAM 0, (self.start sys portno w).1⟩,
         ⟨.setsockopt (self.start sys portno w).1 SOL_SOCKET SO_REUSEADDR 1 SIZEOF_INT, so⟩,
         ⟨.bind (self.start sys portno w).1 (startAddr portno) SIZEOF_SOCKADDR_IN, b⟩,
         ⟨.listen (self.start sys portno w).1 1, l⟩] := by
  rcases start_cases sys self portno w with ⟨e, os1, he, heq⟩ |
    ⟨sfd, so, b, c, os4, _, _, heq⟩ | ⟨sfd, so, b, l, os4, _, hb, heq⟩
  · rw [heq] at h
    exact absurd he (not_lt.mpr h)
  · rw [heq] at h
    exact absurd h (show ¬ (0 : Int) ≤ -1 by decide)
  · rw [heq]
    exact ⟨rfl, so, b, l, hb, issued_append _ _ _⟩

/-- C7, amended, at a concrete run: `start(9999)` returns 3 in a process with
descriptors 0 to 2 open, and 3 is stored. -/
theorem start_nonneg_implies_bound_witness :
    (SimpleServer.ctor.start FdTable.sys 9999 ⟨stdTable, []⟩).2.1.mFd =
      (SimpleServer.ctor.start FdTable.sys 9999 ⟨stdTable, []⟩).1 ∧
    ∃ so b l : Int, 0 ≤ b ∧
      issued ⟨stdTable, []⟩ (SimpleServer.ctor.start FdTable.sys 9999 ⟨stdTable, []⟩).2.2 =
        [⟨.socket AF_INET SOCK_STREAM 0,
            (SimpleServer.ctor.start FdTable.sys 9999 ⟨stdTable, []⟩).1⟩,
         ⟨.setsockopt (SimpleServer.ctor.start FdTable.sys 9999 ⟨stdTable, []⟩).1
            SOL_SOCKET SO_REUSEADDR 1 SIZEOF_INT, so⟩,
         ⟨.bind (SimpleServer.ctor.start FdTable.sys 9999 ⟨stdTable, []⟩).1
            (startAddr 9999) SIZEOF_SOCKADDR_IN, b⟩,
         ⟨.listen (SimpleServer.ctor.start FdTable.sys 9999 ⟨stdTable, []⟩).1 1, l⟩] :=
  start_nonneg_implies_bound FdTable.sys SimpleServer.ctor 9999 ⟨stdTable, []⟩ (by decide)

/-- C8, as stated, fails: two `start` calls on one instance, on ports 9999 and
9998, return descriptors 3 and 4; both sockets are then live; destruction
closes only 4, and descriptor 3 is still an open listening socket afterwards. -/
theorem second_start_leaks_first_socket :
    (run FdTable.sys [.start 9999, .start 9998] SimpleServer.ctor ⟨stdTable, []⟩).1 =
      [(.start 9999, 3), (.start 9998, 4)] ∧
    liveSockets
      (run FdTable.sys [.start 9999, .start 9998] SimpleServer.ctor ⟨stdTable, []⟩).2.2.trace =
      some [3, 4] ∧
    liveSockets
      ((run FdTable.sys [.start 9999, .start 9998] SimpleServer.ctor ⟨stdTable, []⟩).2.1.dtor
        FdTable.sys
        (run FdTable.sys [.start 9999, .start 9998] SimpleServer.ctor
          ⟨stdTable, []⟩).2.2).trace = some [3] ∧
    lookup
      ((run FdTable.sys [.start 9999, .start 9998] SimpleServer.ctor ⟨stdTable, []⟩).2.1.dtor
        FdTable.sys
        (run FdTable.sys [.start 9999, .start 9998] SimpleServer.ctor
          ⟨stdTable, []⟩).2.2).os.fds 3 = some (.sock true (some (htons 9999)) true 0) := by
  decide

/-- C8, amended: in every state reachable from construction by a sequence of
`start` and `accept` calls, the instance has never released a socket that was
not live, and the sockets created by its `start` calls and still open are as
many as the `start` calls that returned a non-negative value. When at most one
`start` succeeded, at most one such socket is open and it is the stored
descriptor; destroying the instance then leaves none open, each released once,
provided none is open or the stored descriptor is strictly positive. -/
theorem live_sockets_match_successful_starts {σ : Type} (sys : σ → SysCall → Int × σ)
    (ops : List Op) (os0 : σ) :
    ∃ live : List Int,
      liveSockets (run sys ops SimpleServer.ctor ⟨os0, []⟩).2.2.trace = some live ∧
      live.length = successes (run sys ops SimpleServer.ctor ⟨os0, []⟩).1 ∧
      (successes (run sys ops SimpleServer.ctor ⟨os0, []⟩).1 ≤ 1 →
        live.length ≤ 1 ∧
        (∀ fd ∈ live, fd = (run sys ops SimpleServer.ctor ⟨os0, []⟩).2.1.mFd) ∧
        (live = [] ∨ 0 < (run sys ops SimpleServer.ctor ⟨os0, []⟩).2.1.mFd →
          liveSockets ((run sys ops SimpleServer.ctor ⟨os0, []⟩).2.1.dtor sys
            (run sys ops SimpleServer.ctor ⟨os0, []⟩).2.2).trace = some [])) := by
  have h0 : Owns SimpleServer.ctor (⟨os0, []⟩ : World σ).trace 0 :=
    ⟨[], rfl, rfl, fun _ => rfl, fun h => absurd h (by decide)⟩
  obtain ⟨live, h1, h2, h3, h4⟩ := owns_run sys ops SimpleServer.ctor ⟨os0, []⟩ 0 h0
  rw [Nat.zero_add] at h2 h3 h4
  refine ⟨live, h1, h2, fun hle => ⟨by omega, ?_, ?_⟩⟩
  · intro fd hfd
    by_cases hk : successes (run sys ops SimpleServer.ctor ⟨os0, []⟩).1 = 1
    · rw [h4 hk] at hfd
      exact List.mem_singleton.mp hfd
    · have hl : live = [] := List.length_eq_zero.mp (by omega)
      rw [hl] at hfd
      exact absurd hfd (List.not_mem_nil fd)
  · intro hd
    by_cases hk : successes (run sys ops SimpleServer.ctor ⟨os0, []⟩).1 = 1
    · have hl := h4 hk
      by_cases hp : 0 < (run sys ops SimpleServer.ctor ⟨os0, []⟩).2.1.mFd
      · unfold liveSockets at h1
        simp [SimpleServer.dtor, syscall, hp, liveSockets, replay_append, h1, hl, replay]
      · rcases hd with hd | hd
        · rw [hd] at hl
          exact absurd hl (by simp)
        · exact absurd hd hp
    · have hz : successes (run sys ops SimpleServer.ctor ⟨os0, []⟩).1 = 0 := by omega
      have hl : live = [] := List.length_eq_zero.mp (by omega)
      have hm := h3 hz
      have hnp : ¬ 0 < (run sys ops SimpleServer.ctor ⟨os0, []⟩).2.1.mFd := by omega
      simp only [SimpleServer.dtor, gt_iff_lt, hnp, if_false]
      rw [h1, hl]

/-- C8, amended, at a concrete run: `start(9999)` returns 3, `accept` finds no
peer, a second `start(9999)` fails at `bind` and closes its socket 4; one
`start` succeeded, the only live socket is the stored 3, and destruction
leaves none. -/
theorem live_sockets_match_successful_starts_witness :
    successes (run FdTable.sys [.start 9999, .accept, .start 9999] SimpleServer.ctor
      ⟨stdTable, []⟩).1 ≤ 1 ∧
    liveSockets (run FdTable.sys [.start 9999, .accept, .start 9999] SimpleServer.ctor
      ⟨stdTable, []⟩).2.2.trace = some [3] ∧
    liveSockets ((run FdTable.sys [.start 9999, .accept, .start 9999] SimpleServer.ctor
        ⟨stdTable, []⟩).2.1.dtor FdTable.sys
      (run FdTable.sys [.start 9999, .accept, .start 9999] SimpleServer.ctor
        ⟨stdTable, []⟩).2.2).trace = some [] :=
  have h := live_sockets_match_successful_starts FdTable.sys [.start 9999, .accept, .start 9999]
    stdTable
  ⟨by decide, by decide,
    Exists.elim h (fun _ hl => (hl.2.2 (by decide)).2.2 (Or.inr (by decide)))⟩

/-! ## `accept` before any successful `start`, and the port conversion -/

/-- C9, as stated, fails: the value stored at construction is 0, a descriptor
number that can be open. In a process whose descriptor 0 is a listening socket
with one peer waiting, `accept` on a Listener as constructed acts on that
descriptor and returns the new connection descriptor 1, a non-negative value. -/
theorem accept_unstarted_can_succeed :
    SimpleServer.ctor.mFd = 0 ∧
    lookup [some (.sock true (some (htons 9999)) true 1)] SimpleServer.ctor.mFd =
      some (.sock true (some (htons 9999)) true 1) ∧
    (SimpleServer.ctor.accept FdTable.sys
      ⟨⟨[some (.sock true (some (htons 9999)) true 1)], [], 1024⟩, []⟩).1 = 1 ∧
    (SimpleServer.ctor.accept FdTable.sys
      ⟨⟨[some (.sock true (some (htons 9999)) true 1)], [], 1024⟩, []⟩).2.2 =
      ⟨⟨[some (.sock true (some (htons 9999)) true 0), some .conn], [], 1024⟩,
        [⟨.accept 0 SIZEOF_SOCKADDR_UN, 1⟩]⟩ := by
  decide

/-- C9, amended: on a Listener on which no `start` call has succeeded (as
constructed, or after a run whose `start` calls all returned negative values),
the stored descriptor is the construction-time value 0, and `accept` issues
exactly one call, `accept` on descriptor 0, whose result it returns unchanged:
it returns a negative value exactly when the operating system answers the
`accept` on descriptor 0 with a negative value. -/
theorem accept_unstarted_uses_descriptor_zero {σ : Type} (sys : σ → SysCall → Int × σ)
    (ops : List Op) (w : World σ)
    (h : ∀ x ∈ (run sys ops SimpleServer.ctor w).1, startSucceeded x = false) :
    (run sys ops SimpleServer.ctor w).2.1.mFd = 0 ∧
    ((run sys ops SimpleServer.ctor w).2.1.accept sys (run sys ops SimpleServer.ctor w).2.2).1 =
      (sys (run sys ops SimpleServer.ctor w).2.2.os (.accept 0 SIZEOF_SOCKADDR_UN)).1 ∧
    issued (run sys ops SimpleServer.ctor w).2.2
      ((run sys ops SimpleServer.ctor w).2.1.accept sys (run sys ops SimpleServer.ctor w).2.2).2.2 =
      [⟨.accept 0 SIZEOF_SOCKADDR_UN,
        (sys (run sys ops SimpleServer.ctor w).2.2.os (.accept 0 SIZEOF_SOCKADDR_UN)).1⟩] ∧
    (((run sys ops SimpleServer.ctor w).2.1.accept sys
        (run sys ops SimpleServer.ctor w).2.2).1 < 0 ↔
      (sys (run sys ops SimpleServer.ctor w).2.2.os (.accept 0 SIZEOF_SOCKADDR_UN)).1 < 0) := by
  have hk := run_no_success_keeps sys ops SimpleServer.ctor w h
  rw [hk, accept_eq, issued_append]
  exact ⟨rfl, rfl, rfl, Iff.rfl⟩

/-- C9, amended, at a concrete run: in a process with the terminal on
descriptors 0 to 2 and port 9999 held elsewhere, `start(9999)` fails, and the
following `accept` is issued on descriptor 0 and returns -1. -/
theorem accept_unstarted_uses_descriptor_zero_witness :
    (run FdTable.sys [.start 9999] SimpleServer.ctor
      ⟨⟨[some .file, some .file, some .file], [htons 9999], 1024⟩, []⟩).1 =
      [(.start 9999, -1)] ∧
    (run FdTable.sys [.start 9999] SimpleServer.ctor
      ⟨⟨[some .file, some .file, some .file], [htons 9999], 1024⟩, []⟩).2.1.mFd = 0 ∧
    issued
      (run FdTable.sys [.start 9999] SimpleServer.ctor
        ⟨⟨[some .file, some .file, some .file], [htons 9999], 1024⟩, []⟩).2.2
      ((run FdTable.sys [.start 9999] SimpleServer.ctor
          ⟨⟨[some .file, some .file, some .file], [htons 9999], 1024⟩, []⟩).2.1.accept
        FdTable.sys
        (run FdTable.sys [.start 9999] SimpleServer.ctor
          ⟨⟨[some .file, some .file, some .file], [htons 9999], 1024⟩, []⟩).2.2).2.2 =
      [⟨.accept 0 SIZEOF_SOCKADDR_UN, -1⟩] :=
  have h := accept_unstarted_uses_descriptor_zero FdTable.sys [.start 9999]
    ⟨⟨[some .file, some .file, some .file], [htons 9999], 1024⟩, []⟩ (by decide)
  ⟨by decide, h.1, h.2.2.1⟩

/-- C10: for every `int` port argument `start` validates nothing: whenever
`socket()` succeeds, `bind` is issued, with the port field holding
`p = portno mod 2^16` in network byte order, bytes `(p / 256, p mod 256)`.
Hence `start(portno + 65536 * k)` behaves exactly as `start(portno)` and binds
the identical address, and for `0 ≤ portno ≤ 65535` the bound port is `portno`. -/
theorem start_port_taken_mod_65536 {σ : Type} (sys : σ → SysCall → Int × σ)
    (self : SimpleServer) (portno k : Int) (w : World σ) :
    (startAddr portno).sin_port =
      ⟨(portno % 65536).toNat / 256, (portno % 65536).toNat % 256⟩ ∧
    ntohs (startAddr portno).sin_port = (portno % 65536).toNat ∧
    (0 ≤ (sys w.os (.socket AF_INET SOCK_STREAM 0)).1 →
      ∃ b : Int, (⟨.bind (sys w.os (.socket AF_INET SOCK_STREAM 0)).1 (startAddr portno)
        SIZEOF_SOCKADDR_IN, b⟩ : Event) ∈ issued w (self.start sys portno w).2.2) ∧
    startAddr (portno + 65536 * k) = startAddr portno ∧
    self.start sys (portno + 65536 * k) w = self.start sys portno w ∧
    (0 ≤ portno → portno ≤ 65535 →
      (startAddr portno).sin_port = ⟨portno.toNat / 256, portno.toNat % 256⟩ ∧
      (ntohs (startAddr portno).sin_port : Int) = portno) := by
  have haddr : startAddr (portno + 65536 * k) = startAddr portno := by
    simp only [startAddr, toUInt16_add_mul]
  have hport : (startAddr portno).sin_port = htons (toUInt16 portno) := rfl
  refine ⟨?_, ?_, ?_, haddr, ?_, ?_⟩
  · rw [startAddr_eq]
  · rw [hport, ntohs_htons _ (toUInt16_lt portno)]
    rfl
  · intro hs
    rcases h1 : sys w.os (.socket AF_INET SOCK_STREAM 0) with ⟨sfd, os1⟩
    rw [h1] at hs
    rcases h2 : sys os1 (.setsockopt sfd SOL_SOCKET SO_REUSEADDR 1 SIZEOF_INT) with ⟨so, os2⟩
    rcases h3 : sys os2 (.bind sfd (startAddr portno) SIZEOF_SOCKADDR_IN) with ⟨b, os3⟩
    refine ⟨b, ?_⟩
    by_cases hb : b < 0
    · rcases h4 : sys os3 (.close sfd) with ⟨c, os4⟩
      rw [start_bind_fails sys self portno w sfd so b c os1 os2 os3 os4 h1 hs h2 h3 hb h4,
        issued_append]
      simp
    · rcases h4 : sys os3 (.listen sfd 1) with ⟨l, os4⟩
      rw [start_succeeds sys self portno w sfd so b l os1 os2 os3 os4 h1 hs h2 h3 (not_lt.mp hb)
        h4, issued_append]
      simp
  · simp only [SimpleServer.start, haddr]
  · intro h0 h1
    have hlt : portno < 65536 := by omega
    refine ⟨?_, ?_⟩
    · rw [startAddr_eq, Int.emod_eq_of_lt h0 hlt]
    · rw [hport, ntohs_htons _ (toUInt16_lt portno)]
      exact toUInt16_of_port portno h0 hlt

/-- C10 at concrete runs: `start(-1)` binds port bytes (255, 255), port 65535;
`start(75535)`, which is 9999 + 65536, binds what `start(9999)` binds; and
`start(9999)` binds bytes (39, 15), decoding to 9999. -/
theorem start_port_taken_mod_65536_witness :
    (∃ b : Int, (⟨.bind 3 ⟨AF_INET, ⟨255, 255⟩, INADDR_ANY, [0, 0, 0, 0, 0, 0, 0, 0]⟩
      SIZEOF_SOCKADDR_IN, b⟩ : Event) ∈
        issued ⟨stdTable, []⟩ (SimpleServer.ctor.start FdTable.sys (-1) ⟨stdTable, []⟩).2.2) ∧
    SimpleServer.ctor.start FdTable.sys 75535 ⟨stdTable, []⟩ =
      SimpleServer.ctor.start FdTable.sys 9999 ⟨stdTable, []⟩ ∧
    (startAddr 9999).sin_port = ⟨39, 15⟩ ∧
    (ntohs (startAddr 9999).sin_port : Int) = 9999 :=
  ⟨(start_port_taken_mod_65536 FdTable.sys SimpleServer.ctor (-1) 0 ⟨stdTable, []⟩).2.2.1
      (by decide),
   (start_port_taken_mod_65536 FdTable.sys SimpleServer.ctor 9999 1 ⟨stdTable, []⟩).2.2.2.2.1,
   ((start_port_taken_mod_65536 FdTable.sys SimpleServer.ctor 9999 0 ⟨stdTable, []⟩).2.2.2.2.2
      (by decide) (by decide)).1,
   ((start_port_taken_mod_65536 FdTable.sys SimpleServer.ctor 9999 0 ⟨stdTable, []⟩).2.2.2.2.2
      (by decide) (by decide)).2⟩
